import Mathlib

/-!
Verification of the SLO analytics engine of this repository against its
specification.  The analytics operate on rows of the `transaction_metrics`
table; we embed a row as a `MetricRow`, real/float columns as `ℚ` (nullable
columns as `Option ℚ`), and each analytics function as a pure Lean function
over a list of rows.  SQL `AVG` skips NULLs, `MAX` skips NULLs, `NULLIF(x,0)`
maps `0` to NULL, `GROUP BY` produces one group per distinct key, and
`ORDER BY ... DESC` places NULL keys last (ClickHouse default).
-/

/-- Arithmetic average of a list of rationals (SQL `AVG` over a non-null
column; groups are always non-empty). -/
def qavg (xs : List ℚ) : ℚ := xs.sum / xs.length

/-- SQL `AVG` over a nullable column: NULL rows are skipped; the result is
NULL when every row is NULL. -/
def avgOpt (xs : List (Option ℚ)) : Option ℚ :=
  if (xs.filterMap id).isEmpty then none
  else some ((xs.filterMap id).sum / (xs.filterMap id).length)

/-- Maximum of a list of rationals, `none` on the empty list (SQL `MAX`). -/
def listMax : List ℚ → Option ℚ
  | [] => none
  | x :: xs =>
    match listMax xs with
    | none => some x
    | some m => some (max x m)

/-- SQL `NULLIF(x, 0)`: turns `0` into NULL, leaves everything else alone. -/
def nullif0 (x : Option ℚ) : Option ℚ :=
  match x with
  | none => none
  | some a => if a = 0 then none else some a

/-- Truncation of a rational toward zero, as Python `int()` applied to a
float. -/
def ratTrunc (x : ℚ) : ℤ :=
  if x < 0 then -Int.floor (-x) else Int.floor x

/-- One row of the `transaction_metrics` table (one service, one hour),
restricted to the columns the analytics under verification read.
Percentile and SLO-target columns are nullable. -/
structure MetricRow where
  timestamp : ℚ
  transaction_name : String
  error_rate : ℚ
  avg_response_time : ℚ
  percentile_50 : Option ℚ
  percentile_95 : Option ℚ
  percentile_99 : Option ℚ
  total_count : ℚ
  error_count : ℚ
  short_target_slo : Option ℚ
  response_slo : Option ℚ
  eb_actual_consumed_percent : ℚ
  eb_left_count : ℚ
  eb_left_percent : ℚ
  aspirational_eb_actual_consumed_percent : ℚ
  eb_health : String
  response_health : String
  timeliness_health : String
  aspirational_eb_health : String
  aspirational_response_health : String
deriving Repr, DecidableEq

/-- Distinct service names of a list of rows, in order of first appearance
(SQL `GROUP BY transaction_name` keys). -/
def serviceNames (rows : List MetricRow) : List String :=
  (rows.map (·.transaction_name)).dedup

/-- The rows of a given service (one `GROUP BY` group). -/
def rowsOf (rows : List MetricRow) (s : String) : List MetricRow :=
  rows.filter (fun r => r.transaction_name = s)

/-- `DegradationDetector._calculate_percent_change`: percentage change from
`baseline` to `current`; a zero baseline yields `100.0` for a positive
current value and `0.0` otherwise. -/
def calculate_percent_change (baseline current : ℚ) : ℚ :=
  if baseline = 0 then (if 0 < current then 100 else 0)
  else (current - baseline) / baseline * 100

/-- `DegradationDetector._classify_severity`: the maximum of the four
percent-changes classified as `critical` (> 100), `warning` (> 50) or
`minor`. -/
def classify_severity (error_rate_change response_time_change
    p95_change p99_change : ℚ) : String :=
  let max_change := max (max error_rate_change response_time_change)
    (max p95_change p99_change)
  if 100 < max_change then "critical"
  else if 50 < max_change then "warning"
  else "minor"

/-- Per-service aggregate of one time window of
`DegradationDetector.detect_degrading_services` (the SELECT with
`AVG(error_rate)`, `AVG(avg_response_time)`, `AVG(percentile_95)`,
`AVG(percentile_99)`, `SUM(total_count)`, `SUM(error_count)` grouped by
`transaction_name`). -/
structure AggRow where
  service_name : String
  avg_error_rate : ℚ
  avg_response_time : ℚ
  avg_response_time_p95 : Option ℚ
  avg_response_time_p99 : Option ℚ
  total_requests : ℚ
  total_errors : ℚ
deriving Repr, DecidableEq

/-- Aggregate of the group of rows of one service in one window. -/
def mkAggRow (s : String) (g : List MetricRow) : AggRow :=
  { service_name := s
    avg_error_rate := qavg (g.map (·.error_rate))
    avg_response_time := qavg (g.map (·.avg_response_time))
    avg_response_time_p95 := avgOpt (g.map (·.percentile_95))
    avg_response_time_p99 := avgOpt (g.map (·.percentile_99))
    total_requests := (g.map (·.total_count)).sum
    total_errors := (g.map (·.error_count)).sum }

/-- One windowed aggregation query of `detect_degrading_services`: filter the
store to the window, then aggregate per service. -/
def windowAggregate (store : List MetricRow) (window : MetricRow → Bool) :
    List AggRow :=
  let w := store.filter window
  (serviceNames w).map (fun s => mkAggRow s (rowsOf w s))

/-- Recent-window predicate: `timestamp >= latest - D AND timestamp <= latest`. -/
def inRecentWindow (latest d : ℚ) (r : MetricRow) : Bool :=
  decide (latest - d ≤ r.timestamp) && decide (r.timestamp ≤ latest)

/-- Baseline-window predicate:
`timestamp >= latest - 2*D AND timestamp < latest - D`. -/
def inBaselineWindow (latest d : ℚ) (r : MetricRow) : Bool :=
  decide (latest - 2 * d ≤ r.timestamp) && decide (r.timestamp < latest - d)

/-- One row of the pandas inner merge of the recent and baseline aggregates
on `service_name`. -/
structure CompRow where
  service_name : String
  recent : AggRow
  baseline : AggRow
deriving Repr, DecidableEq

/-- Pandas `recent_df.merge(baseline_df, on='service_name', how='inner')`:
each recent aggregate is paired with the baseline aggregate of the same
service and dropped when there is none (both frames have distinct keys,
being `GROUP BY` outputs). -/
def innerMerge (recent baseline : List AggRow) : List CompRow :=
  recent.filterMap (fun r =>
    (baseline.find? (fun b => b.service_name = r.service_name)).map
      (fun b => { service_name := r.service_name, recent := r, baseline := b }))

/-- Percent change of the average error rate of a merged row. -/
def errChange (c : CompRow) : ℚ :=
  calculate_percent_change c.baseline.avg_error_rate c.recent.avg_error_rate

/-- Percent change of the average response time of a merged row. -/
def rtChange (c : CompRow) : ℚ :=
  calculate_percent_change c.baseline.avg_response_time c.recent.avg_response_time

/-- Percent change of the P95 latency, `0.0` unless both window values are
non-null. -/
def p95Change (c : CompRow) : ℚ :=
  match c.recent.avg_response_time_p95, c.baseline.avg_response_time_p95 with
  | some pr, some pb => calculate_percent_change pb pr
  | _, _ => 0

/-- Percent change of the P99 latency, `0.0` unless both window values are
non-null. -/
def p99Change (c : CompRow) : ℚ :=
  match c.recent.avg_response_time_p99, c.baseline.avg_response_time_p99 with
  | some pr, some pb => calculate_percent_change pb pr
  | _, _ => 0

/-- The degradation flag of `detect_degrading_services`: any of the four
percent-changes strictly exceeds the threshold. -/
def isDegrading (c : CompRow) (threshold : ℚ) : Bool :=
  decide (threshold < errChange c) || decide (threshold < rtChange c) ||
  decide (threshold < p95Change c) || decide (threshold < p99Change c)

/-- One entry of the degrading-services result list (the fields the claims
read). -/
structure DegradingEntry where
  service_name : String
  error_rate_change_percent : ℚ
  response_time_change_percent : ℚ
  response_time_p95_change_percent : ℚ
  response_time_p99_change_percent : ℚ
  severity : String
deriving Repr, DecidableEq

/-- The result entry built for a degrading merged row. -/
def mkDegradingEntry (c : CompRow) : DegradingEntry :=
  { service_name := c.service_name
    error_rate_change_percent := errChange c
    response_time_change_percent := rtChange c
    response_time_p95_change_percent := p95Change c
    response_time_p99_change_percent := p99Change c
    severity := classify_severity (errChange c) (rtChange c) (p95Change c)
      (p99Change c) }

/-- The sort key of the final `degrading_services.sort`: the maximum of the
four percent-changes of an entry. -/
def entryMaxChange (e : DegradingEntry) : ℚ :=
  max (max e.error_rate_change_percent e.response_time_change_percent)
    (max e.response_time_p95_change_percent e.response_time_p99_change_percent)

/-- Sort order of the degrading-services list: descending maximum change. -/
def degradingGE (a b : DegradingEntry) : Prop :=
  entryMaxChange b ≤ entryMaxChange a

instance : DecidableRel degradingGE := fun a b =>
  inferInstanceAs (Decidable (entryMaxChange b ≤ entryMaxChange a))

/-- The comparison stage of `detect_degrading_services`: flag the degrading
merged rows, build their entries, and sort by maximum change descending. -/
def detectOnComparisons (cs : List CompRow) (threshold : ℚ) :
    List DegradingEntry :=
  List.insertionSort degradingGE
    ((cs.filter (fun c => isDegrading c threshold)).map mkDegradingEntry)

/-- The maximum timestamp of the store
(`ClickHouseManager.get_time_range().max_time`). -/
def maxTime (store : List MetricRow) : Option ℚ :=
  listMax (store.map (·.timestamp))

/-- `DegradationDetector.detect_degrading_services`: empty result when the
store has no rows; otherwise aggregate the recent and baseline windows ending
at the store's maximum timestamp, inner-merge on service name, flag and sort. -/
def detect_degrading_services (store : List MetricRow)
    (time_window_days threshold_percent : ℚ) : List DegradingEntry :=
  match maxTime store with
  | none => []
  | some latest =>
    detectOnComparisons
      (innerMerge
        (windowAggregate store (inRecentWindow latest time_window_days))
        (windowAggregate store (inBaselineWindow latest time_window_days)))
      threshold_percent

theorem qavg_nil : qavg [] = 0 := by simp [qavg]

theorem mem_serviceNames {rows : List MetricRow} {s : String} :
    s ∈ serviceNames rows ↔ ∃ r ∈ rows, r.transaction_name = s := by
  simp [serviceNames, List.mem_dedup, List.mem_map]

theorem mem_detectOnComparisons {cs : List CompRow} {threshold : ℚ}
    {e : DegradingEntry} :
    e ∈ detectOnComparisons cs threshold ↔
      ∃ c ∈ cs, isDegrading c threshold = true ∧ e = mkDegradingEntry c := by
  unfold detectOnComparisons
  rw [List.mem_insertionSort, List.mem_map]
  constructor
  · rintro ⟨c, hc, rfl⟩
    rw [List.mem_filter] at hc
    exact ⟨c, hc.1, hc.2, rfl⟩
  · rintro ⟨c, hc, hd, rfl⟩
    exact ⟨c, List.mem_filter.2 ⟨hc, hd⟩, rfl⟩

theorem isDegrading_iff {c : CompRow} {threshold : ℚ} :
    isDegrading c threshold = true ↔
      (threshold < errChange c ∨ threshold < rtChange c ∨
        threshold < p95Change c ∨ threshold < p99Change c) := by
  simp [isDegrading, or_assoc]

theorem classify_severity_spec (a b p q : ℚ) :
    (classify_severity a b p q = "critical" ↔ 100 < max (max a b) (max p q)) ∧
    (classify_severity a b p q = "warning" ↔
      50 < max (max a b) (max p q) ∧ max (max a b) (max p q) ≤ 100) ∧
    (classify_severity a b p q = "minor" ↔ max (max a b) (max p q) ≤ 50) := by
  simp only [classify_severity]
  split_ifs with h1 h2
  · exact ⟨⟨fun _ => h1, fun _ => rfl⟩,
      ⟨fun h => absurd h (by decide), fun h => absurd h1 (not_lt.2 h.2)⟩,
      ⟨fun h => absurd h (by decide), fun h => absurd h1 (by simp; linarith)⟩⟩
  · exact ⟨⟨fun h => absurd h (by decide), fun h => absurd h h1⟩,
      ⟨fun _ => ⟨h2, not_lt.1 h1⟩, fun _ => rfl⟩,
      ⟨fun h => absurd h (by decide), fun h => absurd h2 (not_lt.2 h)⟩⟩
  · exact ⟨⟨fun h => absurd h (by decide), fun h => absurd h h1⟩,
      ⟨fun h => absurd h (by decide), fun h => absurd h.1 h2⟩,
      ⟨fun _ => not_lt.1 h2, fun _ => rfl⟩⟩

/-- C2: a merged service row is flagged degrading by the comparison stage of
`detect_degrading_services` iff at least one of its four percent-changes
strictly exceeds the threshold, and every flagged entry's severity is
`critical` iff the maximum of its four changes is above 100, `warning` iff it
is above 50 and at most 100, and `minor` iff it is at most 50. -/
theorem detect_degrading_flag_and_severity (cs : List CompRow) (threshold : ℚ)
    (c : CompRow) (hnd : (cs.map CompRow.service_name).Nodup) (hc : c ∈ cs) :
    ((∃ e ∈ detectOnComparisons cs threshold, e.service_name = c.service_name) ↔
      (threshold < errChange c ∨ threshold < rtChange c ∨
        threshold < p95Change c ∨ threshold < p99Change c)) ∧
    (∀ e ∈ detectOnComparisons cs threshold,
      (e.severity = "critical" ↔ 100 < entryMaxChange e) ∧
      (e.severity = "warning" ↔
        50 < entryMaxChange e ∧ entryMaxChange e ≤ 100) ∧
      (e.severity = "minor" ↔ entryMaxChange e ≤ 50)) := by
  constructor
  · constructor
    · rintro ⟨e, he, hname⟩
      obtain ⟨c', hc', hd, rfl⟩ := mem_detectOnComparisons.1 he
      have hcc : c' = c := by
        refine List.inj_on_of_nodup_map hnd hc' hc ?_
        simpa [mkDegradingEntry] using hname
      subst hcc
      exact isDegrading_iff.1 hd
    · intro h
      exact ⟨mkDegradingEntry c,
        mem_detectOnComparisons.2 ⟨c, hc, isDegrading_iff.2 h, rfl⟩, rfl⟩
  · intro e he
    obtain ⟨c', _, _, rfl⟩ := mem_detectOnComparisons.1 he
    simpa [mkDegradingEntry, entryMaxChange] using
      classify_severity_spec (errChange c') (rtChange c') (p95Change c')
        (p99Change c')

/-- Concrete merged row whose error rate moves from `b` to `c` while every
other metric is flat. -/
def compW (s : String) (b c : ℚ) : CompRow :=
  { service_name := s
    recent := { service_name := s, avg_error_rate := c, avg_response_time := 1,
                avg_response_time_p95 := none, avg_response_time_p99 := none,
                total_requests := 1, total_errors := 0 }
    baseline := { service_name := s, avg_error_rate := b, avg_response_time := 1,
                  avg_response_time_p95 := none, avg_response_time_p99 := none,
                  total_requests := 1, total_errors := 0 } }

/-- Concrete comparison list with error-rate changes 150, 75, 25 and 10. -/
def csW : List CompRow :=
  [compW "a" 100 250, compW "b" 100 175, compW "c" 100 125, compW "d" 100 110]

/-- C2 witness: `detect_degrading_flag_and_severity` applied to the concrete
comparison list `csW` at threshold 20 and the service with change 150,
together with the concrete outcomes: change 150 is flagged critical, 75
warning, 25 minor, and 10 is not flagged at all. -/
theorem detect_degrading_flag_and_severity_witness :
    (((∃ e ∈ detectOnComparisons csW 20,
        e.service_name = (compW "a" 100 250).service_name) ↔
      (20 < errChange (compW "a" 100 250) ∨
        20 < rtChange (compW "a" 100 250) ∨
        20 < p95Change (compW "a" 100 250) ∨
        20 < p99Change (compW "a" 100 250))) ∧
    (∀ e ∈ detectOnComparisons csW 20,
      (e.severity = "critical" ↔ 100 < entryMaxChange e) ∧
      (e.severity = "warning" ↔
        50 < entryMaxChange e ∧ entryMaxChange e ≤ 100) ∧
      (e.severity = "minor" ↔ entryMaxChange e ≤ 50))) ∧
    (∃ e ∈ detectOnComparisons csW 20,
      e.service_name = "a" ∧ e.severity = "critical") ∧
    (∃ e ∈ detectOnComparisons csW 20,
      e.service_name = "b" ∧ e.severity = "warning") ∧
    (∃ e ∈ detectOnComparisons csW 20,
      e.service_name = "c" ∧ e.severity = "minor") ∧
    (∀ e ∈ detectOnComparisons csW 20, e.service_name ≠ "d") := by
  refine ⟨detect_degrading_flag_and_severity csW 20 (compW "a" 100 250)
      (by decide) (by decide), ?_, ?_, ?_, ?_⟩
  · refine ⟨mkDegradingEntry (compW "a" 100 250),
      mem_detectOnComparisons.2 ⟨compW "a" 100 250, by decide,
        isDegrading_iff.2 (Or.inl (by norm_num [errChange, compW,
          calculate_percent_change])), rfl⟩, rfl, ?_⟩
    norm_num [mkDegradingEntry, classify_severity, errChange, rtChange,
      p95Change, p99Change, compW, calculate_percent_change, max_def]
  · refine ⟨mkDegradingEntry (compW "b" 100 175),
      mem_detectOnComparisons.2 ⟨compW "b" 100 175, by decide,
        isDegrading_iff.2 (Or.inl (by norm_num [errChange, compW,
          calculate_percent_change])), rfl⟩, rfl, ?_⟩
    norm_num [mkDegradingEntry, classify_severity, errChange, rtChange,
      p95Change, p99Change, compW, calculate_percent_change, max_def]
  · refine ⟨mkDegradingEntry (compW "c" 100 125),
      mem_detectOnComparisons.2 ⟨compW "c" 100 125, by decide,
        isDegrading_iff.2 (Or.inl (by norm_num [errChange, compW,
          calculate_percent_change])), rfl⟩, rfl, ?_⟩
    norm_num [mkDegradingEntry, classify_severity, errChange, rtChange,
      p95Change, p99Change, compW, calculate_percent_change, max_def]
  · intro e he
    obtain ⟨c', hc', hd, rfl⟩ := mem_detectOnComparisons.1 he
    simp only [csW, List.mem_cons, List.not_mem_nil, or_false] at hc'
    rcases hc' with rfl | rfl | rfl | rfl
    · simp [mkDegradingEntry, compW]
    · simp [mkDegradingEntry, compW]
    · simp [mkDegradingEntry, compW]
    · exfalso
      revert hd
      norm_num [isDegrading, errChange, rtChange, p95Change, p99Change,
        compW, calculate_percent_change]

theorem mem_windowAggregate {store : List MetricRow} {window : MetricRow → Bool}
    {a : AggRow} (h : a ∈ windowAggregate store window) :
    ∃ r ∈ store, window r = true ∧ r.transaction_name = a.service_name := by
  unfold windowAggregate at h
  rw [List.mem_map] at h
  obtain ⟨s, hs, rfl⟩ := h
  obtain ⟨r, hr, hname⟩ := mem_serviceNames.1 hs
  rw [List.mem_filter] at hr
  exact ⟨r, hr.1, hr.2, by simpa [mkAggRow] using hname⟩

theorem mem_innerMerge {recent baseline : List AggRow} {c : CompRow}
    (h : c ∈ innerMerge recent baseline) :
    c.recent ∈ recent ∧ c.baseline ∈ baseline ∧
      c.recent.service_name = c.service_name ∧
      c.baseline.service_name = c.service_name := by
  unfold innerMerge at h
  rw [List.mem_filterMap] at h
  obtain ⟨r, hr, hmap⟩ := h
  cases hfind : baseline.find? (fun b => b.service_name = r.service_name) with
  | none => rw [hfind] at hmap; simp at hmap
  | some b =>
    rw [hfind] at hmap
    simp only [Option.map_some', Option.some.injEq] at hmap
    subst hmap
    have hb := List.mem_of_find?_eq_some hfind
    have hname : b.service_name = r.service_name := by
      simpa using List.find?_some hfind
    exact ⟨hr, hb, rfl, hname⟩

/-- C3: every entry of `detect_degrading_services` belongs to a service
having at least one row in the recent window and at least one row in the
baseline window, and a service lacking rows in either window never appears
(the inner join on service name drops it). -/
theorem detect_degrading_window_rows (store : List MetricRow)
    (time_window_days threshold_percent latest : ℚ)
    (hm : maxTime store = some latest) :
    (∀ e ∈ detect_degrading_services store time_window_days threshold_percent,
      (∃ r ∈ store, r.transaction_name = e.service_name ∧
        inRecentWindow latest time_window_days r = true) ∧
      (∃ r ∈ store, r.transaction_name = e.service_name ∧
        inBaselineWindow latest time_window_days r = true)) ∧
    (∀ s : String,
      ((¬ ∃ r ∈ store, r.transaction_name = s ∧
          inRecentWindow latest time_window_days r = true) ∨
       (¬ ∃ r ∈ store, r.transaction_name = s ∧
          inBaselineWindow latest time_window_days r = true)) →
      ∀ e ∈ detect_degrading_services store time_window_days threshold_percent,
        e.service_name ≠ s) := by
  have key : ∀ e ∈ detect_degrading_services store time_window_days
      threshold_percent,
      (∃ r ∈ store, r.transaction_name = e.service_name ∧
        inRecentWindow latest time_window_days r = true) ∧
      (∃ r ∈ store, r.transaction_name = e.service_name ∧
        inBaselineWindow latest time_window_days r = true) := by
    intro e he
    unfold detect_degrading_services at he
    rw [hm] at he
    obtain ⟨c, hc, _, rfl⟩ := mem_detectOnComparisons.1 he
    obtain ⟨hrec, hbase, hrname, hbname⟩ := mem_innerMerge hc
    obtain ⟨r, hrstore, hrwin, hrn⟩ := mem_windowAggregate hrec
    obtain ⟨b, hbstore, hbwin, hbn⟩ := mem_windowAggregate hbase
    constructor
    · exact ⟨r, hrstore, by simpa [mkDegradingEntry, hrname] using hrn, hrwin⟩
    · exact ⟨b, hbstore, by simpa [mkDegradingEntry, hbname] using hbn, hbwin⟩
  refine ⟨key, ?_⟩
  rintro s (hmiss | hmiss) e he heq
  · exact hmiss (heq ▸ (key e he).1)
  · exact hmiss (heq ▸ (key e he).2)

/-- Concrete metric row: timestamp, service, error rate, response time; all
other numeric columns benign, all health enums `HEALTHY`. -/
def mkRow (t : ℚ) (s : String) (er rt : ℚ) : MetricRow :=
  { timestamp := t, transaction_name := s, error_rate := er,
    avg_response_time := rt, percentile_50 := none, percentile_95 := none,
    percentile_99 := none, total_count := 1, error_count := 0,
    short_target_slo := none, response_slo := none,
    eb_actual_consumed_percent := 0, eb_left_count := 0, eb_left_percent := 0,
    aspirational_eb_actual_consumed_percent := 0, eb_health := "HEALTHY",
    response_health := "HEALTHY", timeliness_health := "HEALTHY",
    aspirational_eb_health := "HEALTHY",
    aspirational_response_health := "HEALTHY" }

/-- Concrete store with one service having one recent row (t = 10) and one
baseline row (t = 1) for a 7-day window ending at the maximum timestamp 10. -/
def storeW3 : List MetricRow := [mkRow 10 "a" 2 1, mkRow 1 "a" 1 1]

/-- C3 witness: `detect_degrading_window_rows` applied at the concrete store
`storeW3`, whose maximum timestamp is 10. -/
theorem detect_degrading_window_rows_witness :
    (∀ e ∈ detect_degrading_services storeW3 7 20,
      (∃ r ∈ storeW3, r.transaction_name = e.service_name ∧
        inRecentWindow 10 7 r = true) ∧
      (∃ r ∈ storeW3, r.transaction_name = e.service_name ∧
        inBaselineWindow 10 7 r = true)) ∧
    (∀ s : String,
      ((¬ ∃ r ∈ storeW3, r.transaction_name = s ∧
          inRecentWindow 10 7 r = true) ∨
       (¬ ∃ r ∈ storeW3, r.transaction_name = s ∧
          inBaselineWindow 10 7 r = true)) →
      ∀ e ∈ detect_degrading_services storeW3 7 20,
        e.service_name ≠ s) :=
  detect_degrading_window_rows storeW3 7 20 10 (by decide)

/-- C9: when the store has no rows (no maximum timestamp exists),
`detect_degrading_services` returns the empty list. -/
theorem detect_degrading_no_data (store : List MetricRow)
    (time_window_days threshold_percent : ℚ)
    (hm : maxTime store = none) :
    detect_degrading_services store time_window_days threshold_percent = [] := by
  unfold detect_degrading_services
  rw [hm]

/-- C9 witness: the empty store has no maximum timestamp and yields the empty
degrading-services list. -/
theorem detect_degrading_no_data_witness :
    maxTime [] = none ∧ detect_degrading_services [] 7 20 = [] :=
  ⟨rfl, detect_degrading_no_data [] 7 20 rfl⟩

/-- C1: percent change equals `(current - baseline)/baseline * 100` for a
nonzero baseline, `100` for a zero baseline and positive current value, and
`0` for a zero baseline and zero current value. -/
theorem calculate_percent_change_spec (b c : ℚ) :
    (b ≠ 0 → calculate_percent_change b c = (c - b) / b * 100) ∧
    (b = 0 → 0 < c → calculate_percent_change b c = 100) ∧
    (b = 0 → c = 0 → calculate_percent_change b c = 0) := by
  refine ⟨fun hb => ?_, fun hb hc => ?_, fun hb hc => ?_⟩
  · simp [calculate_percent_change, hb]
  · simp [calculate_percent_change, hb, hc]
  · simp [calculate_percent_change, hb, hc]

/-- C1 witness: the three cases of `calculate_percent_change_spec`
instantiated at concrete inputs. -/
theorem calculate_percent_change_spec_witness :
    calculate_percent_change 2 3 = 50 ∧
    calculate_percent_change 0 5 = 100 ∧
    calculate_percent_change 0 0 = 0 :=
  ⟨((calculate_percent_change_spec 2 3).1 (by norm_num)).trans (by norm_num),
   (calculate_percent_change_spec 0 5).2.1 rfl (by norm_num),
   (calculate_percent_change_spec 0 0).2.2 rfl rfl⟩

/-- `ORDER BY key DESC` comparison on a nullable key: larger keys first,
NULL keys last (ClickHouse default `NULLS LAST`). -/
def optDescLe (x y : Option ℚ) : Bool :=
  match x, y with
  | some a, some b => decide (b ≤ a)
  | some _, none => true
  | none, some _ => false
  | none, none => true

theorem optDescLe_total (x y : Option ℚ) :
    optDescLe x y = true ∨ optDescLe y x = true := by
  cases x <;> cases y <;> simp [optDescLe] <;> exact le_total _ _

theorem optDescLe_trans {x y z : Option ℚ} (h1 : optDescLe x y = true)
    (h2 : optDescLe y z = true) : optDescLe x z = true := by
  cases x <;> cases y <;> cases z <;> simp [optDescLe] at * <;>
    exact le_trans h2 h1

/-- The SQL burn-rate expression
`(AVG(error_rate) / NULLIF(MAX(short_target_slo), 0)) * 100` over one
service's group of rows: NULL when the maximum standard error-rate target is
0 or NULL. -/
def serviceBurnRate (g : List MetricRow) : Option ℚ :=
  match nullif0 (listMax (g.filterMap (·.short_target_slo))) with
  | none => none
  | some t => some (qavg (g.map (·.error_rate)) / t * 100)

/-- ClickHouse `any(column)` over a group: a representative (first) value. -/
def anyStr (f : MetricRow → String) (g : List MetricRow) : String :=
  match g with
  | [] => "UNKNOWN"
  | r :: _ => f r

/-- One entry of `MetricsAggregator.get_budget_exhausted_services`.
`order_burn_rate` is the SQL `burn_rate` column that drives `ORDER BY burn_rate
DESC`; the Python layer reports it as `burn_rate`, substituting `0.0` when it
is NULL. -/
structure BudgetEntry where
  service_name : String
  eb_actual_consumed_percent : ℚ
  eb_left_count : ℤ
  aspirational_eb_actual_consumed_percent : ℚ
  order_burn_rate : Option ℚ
  burn_rate : ℚ
  eb_health : String
  avg_error_rate : ℚ
  total_requests : ℤ
deriving Repr, DecidableEq

/-- The `WHERE eb_actual_consumed_percent >= 100 OR eb_left_count < 0` row
predicate of `get_budget_exhausted_services`. -/
def budgetExhaustedPred (r : MetricRow) : Bool :=
  decide (100 ≤ r.eb_actual_consumed_percent) || decide (r.eb_left_count < 0)

/-- Aggregate of one service's group of budget-exhausted rows. -/
def mkBudgetEntry (s : String) (g : List MetricRow) : BudgetEntry :=
  { service_name := s
    eb_actual_consumed_percent := qavg (g.map (·.eb_actual_consumed_percent))
    eb_left_count := ratTrunc (qavg (g.map (·.eb_left_count)))
    aspirational_eb_actual_consumed_percent :=
      qavg (g.map (·.aspirational_eb_actual_consumed_percent))
    order_burn_rate := serviceBurnRate g
    burn_rate := (serviceBurnRate g).getD 0
    eb_health := anyStr (·.eb_health) g
    avg_error_rate := qavg (g.map (·.error_rate))
    total_requests := ratTrunc ((g.map (·.total_count)).sum) }

/-- `ORDER BY burn_rate DESC` on budget entries. -/
def budgetGE (a b : BudgetEntry) : Prop :=
  optDescLe a.order_burn_rate b.order_burn_rate = true

instance : DecidableRel budgetGE := fun _ _ =>
  inferInstanceAs (Decidable (_ = true))

instance : IsTotal BudgetEntry budgetGE :=
  ⟨fun a b => optDescLe_total a.order_burn_rate b.order_burn_rate⟩

instance : IsTrans BudgetEntry budgetGE :=
  ⟨fun _ _ _ h1 h2 => optDescLe_trans h1 h2⟩

/-- `MetricsAggregator.get_budget_exhausted_services`: keep the rows whose
budget is exhausted, aggregate per service, sort by burn rate descending. -/
def get_budget_exhausted_services (store : List MetricRow) : List BudgetEntry :=
  let w := store.filter budgetExhaustedPred
  List.insertionSort budgetGE
    ((serviceNames w).map (fun s => mkBudgetEntry s (rowsOf w s)))

/-- Concrete row with error-budget consumed percent `c` and left count `l`
for service `s`. -/
def budgetRow (s : String) (c l : ℚ) : MetricRow :=
  { mkRow 1 s 0 0 with eb_actual_consumed_percent := c, eb_left_count := l }

/-- C4: a service appears in the budget-exhausted result iff one of its rows
has `eb_actual_consumed_percent >= 100` or `eb_left_count < 0`; the result is
sorted by burn rate descending; and the service with consumed percent 99.9
and left count 1 does not appear. -/
theorem budget_exhausted_spec :
    (∀ (store : List MetricRow) (s : String),
      ((∃ e ∈ get_budget_exhausted_services store, e.service_name = s) ↔
        ∃ r ∈ store, r.transaction_name = s ∧
          (100 ≤ r.eb_actual_consumed_percent ∨ r.eb_left_count < 0)) ∧
      List.Sorted budgetGE (get_budget_exhausted_services store)) ∧
    get_budget_exhausted_services [budgetRow "svc" (99.9 : ℚ) 1] = [] := by
  constructor
  · intro store s
    constructor
    · constructor
      · rintro ⟨e, he, hname⟩
        simp only [get_budget_exhausted_services, List.mem_insertionSort,
          List.mem_map] at he
        obtain ⟨s', hs', rfl⟩ := he
        have hss : s' = s := hname
        subst hss
        obtain ⟨r, hr, hrname⟩ := mem_serviceNames.1 hs'
        rw [List.mem_filter] at hr
        refine ⟨r, hr.1, hrname, ?_⟩
        have := hr.2
        simpa [budgetExhaustedPred] using this
      · rintro ⟨r, hr, hname, hcond⟩
        have hrw : r ∈ store.filter budgetExhaustedPred := by
          rw [List.mem_filter]
          exact ⟨hr, by simpa [budgetExhaustedPred] using hcond⟩
        have hs : s ∈ serviceNames (store.filter budgetExhaustedPred) :=
          mem_serviceNames.2 ⟨r, hrw, hname⟩
        refine ⟨mkBudgetEntry s (rowsOf (store.filter budgetExhaustedPred) s),
          ?_, rfl⟩
        simp only [get_budget_exhausted_services, List.mem_insertionSort,
          List.mem_map]
        exact ⟨s, hs, rfl⟩
    · simp only [get_budget_exhausted_services]
      exact List.sorted_insertionSort budgetGE _
  · have hpred : budgetExhaustedPred (budgetRow "svc" (99.9 : ℚ) 1) = false := by
      rw [budgetExhaustedPred, Bool.or_eq_false_iff]
      constructor <;> rw [decide_eq_false_iff_not] <;>
        simp [budgetRow, mkRow] <;> norm_num
    simp [get_budget_exhausted_services, List.filter_cons, hpred,
      serviceNames, List.insertionSort]

/-- One entry of `MetricsAggregator.get_composite_health_score` (fields the
claims read, plus the SQL `avg_burn_rate` ordering key). -/
structure HealthEntry where
  service_name : String
  healthy_dimensions : ℕ
  health_score : ℚ
  eb_health : String
  response_health : String
  timeliness_health : String
  aspirational_eb_health : String
  aspirational_response_health : String
  order_burn_rate : Option ℚ
  avg_burn_rate : ℚ
deriving Repr, DecidableEq

/-- The Python healthy-dimension count: for each of the five health
dimensions, the per-hour `SUM(CASE WHEN dim = 'HEALTHY' THEN 1 ELSE 0 END)`
count contributes 1 when it is greater than zero. -/
def healthyDimCount (g : List MetricRow) : ℕ :=
  (if 0 < (g.filter (fun r => r.eb_health = "HEALTHY")).length
    then 1 else 0) +
  (if 0 < (g.filter (fun r => r.response_health = "HEALTHY")).length
    then 1 else 0) +
  (if 0 < (g.filter (fun r => r.timeliness_health = "HEALTHY")).length
    then 1 else 0) +
  (if 0 < (g.filter (fun r => r.aspirational_eb_health = "HEALTHY")).length
    then 1 else 0) +
  (if 0 < (g.filter
      (fun r => r.aspirational_response_health = "HEALTHY")).length
    then 1 else 0)

/-- Composite-health entry of one service's group of rows:
`health_score = (healthy_dims / 5) * 100`. -/
def mkHealthEntry (s : String) (g : List MetricRow) : HealthEntry :=
  { service_name := s
    healthy_dimensions := healthyDimCount g
    health_score := (healthyDimCount g : ℚ) / 5 * 100
    eb_health := anyStr (·.eb_health) g
    response_health := anyStr (·.response_health) g
    timeliness_health := anyStr (·.timeliness_health) g
    aspirational_eb_health := anyStr (·.aspirational_eb_health) g
    aspirational_response_health := anyStr (·.aspirational_response_health) g
    order_burn_rate := serviceBurnRate g
    avg_burn_rate := (serviceBurnRate g).getD 0 }

/-- `ORDER BY avg_burn_rate DESC` on composite-health entries. -/
def healthGE (a b : HealthEntry) : Prop :=
  optDescLe a.order_burn_rate b.order_burn_rate = true

instance : DecidableRel healthGE := fun _ _ =>
  inferInstanceAs (Decidable (_ = true))

/-- `MetricsAggregator.get_composite_health_score`: one entry per service of
the whole table, sorted by burn rate descending. -/
def get_composite_health_score (store : List MetricRow) : List HealthEntry :=
  List.insertionSort healthGE
    ((serviceNames store).map (fun s => mkHealthEntry s (rowsOf store s)))

/-- Spec-side dimension predicate: some row of the service in the window has
the dimension's health enum equal to `HEALTHY`. -/
def everHealthy (store : List MetricRow) (s : String)
    (dim : MetricRow → String) : Bool :=
  store.any (fun r =>
    decide (r.transaction_name = s) && decide (dim r = "HEALTHY"))

/-- Spec-side healthy-dimension count: the number of the five dimensions that
are healthy at least once in the window. -/
def specHealthyDims (store : List MetricRow) (s : String) : ℕ :=
  (if everHealthy store s (·.eb_health) then 1 else 0) +
  (if everHealthy store s (·.response_health) then 1 else 0) +
  (if everHealthy store s (·.timeliness_health) then 1 else 0) +
  (if everHealthy store s (·.aspirational_eb_health) then 1 else 0) +
  (if everHealthy store s (·.aspirational_response_health) then 1 else 0)

theorem healthyDim_filter (store : List MetricRow) (s : String)
    (dim : MetricRow → String) :
    0 < ((rowsOf store s).filter (fun r => dim r = "HEALTHY")).length ↔
      everHealthy store s dim = true := by
  rw [List.length_pos_iff_exists_mem]
  constructor
  · rintro ⟨r, hr⟩
    rw [List.mem_filter] at hr
    obtain ⟨hrs, hdim⟩ := hr
    rw [rowsOf, List.mem_filter] at hrs
    rw [everHealthy, List.any_eq_true]
    exact ⟨r, hrs.1, by simp_all⟩
  · intro h
    rw [everHealthy, List.any_eq_true] at h
    obtain ⟨r, hr, hcond⟩ := h
    simp only [Bool.and_eq_true, decide_eq_true_eq] at hcond
    exact ⟨r, List.mem_filter.2
      ⟨List.mem_filter.2 ⟨hr, by simp [hcond.1]⟩, by simp [hcond.2]⟩⟩

theorem healthyDimCount_eq_spec (store : List MetricRow) (s : String) :
    healthyDimCount (rowsOf store s) = specHealthyDims store s := by
  unfold healthyDimCount specHealthyDims
  rw [if_congr (healthyDim_filter store s (·.eb_health)) rfl rfl,
    if_congr (healthyDim_filter store s (·.response_health)) rfl rfl,
    if_congr (healthyDim_filter store s (·.timeliness_health)) rfl rfl,
    if_congr (healthyDim_filter store s (·.aspirational_eb_health)) rfl rfl,
    if_congr (healthyDim_filter store s (·.aspirational_response_health))
      rfl rfl]

/-- C5: every composite-health entry's score is
`(number of dimensions healthy at least once in the window / 5) * 100`, and a
service appears in the result iff it has a row in the store. -/
theorem composite_health_score_spec (store : List MetricRow) :
    (∀ e ∈ get_composite_health_score store,
      e.healthy_dimensions = specHealthyDims store e.service_name ∧
      e.health_score = (specHealthyDims store e.service_name : ℚ) / 5 * 100) ∧
    (∀ s : String,
      (∃ e ∈ get_composite_health_score store, e.service_name = s) ↔
        ∃ r ∈ store, r.transaction_name = s) := by
  constructor
  · intro e he
    simp only [get_composite_health_score, List.mem_insertionSort,
      List.mem_map] at he
    obtain ⟨s, _, rfl⟩ := he
    have hdims : (mkHealthEntry s (rowsOf store s)).healthy_dimensions =
        specHealthyDims store s := healthyDimCount_eq_spec store s
    exact ⟨hdims, by
      simp only [mkHealthEntry] at hdims ⊢
      rw [hdims]⟩
  · intro s
    constructor
    · rintro ⟨e, he, hname⟩
      simp only [get_composite_health_score, List.mem_insertionSort,
        List.mem_map] at he
      obtain ⟨s', hs', rfl⟩ := he
      have hss : s' = s := hname
      subst hss
      exact mem_serviceNames.1 hs'
    · rintro ⟨r, hr, hname⟩
      refine ⟨mkHealthEntry s (rowsOf store s), ?_, rfl⟩
      simp only [get_composite_health_score, List.mem_insertionSort,
        List.mem_map]
      exact ⟨s, mem_serviceNames.2 ⟨r, hr, hname⟩, rfl⟩

/-- Concrete row whose service is healthy in exactly 3 of the 5 dimensions. -/
def healthRow : MetricRow :=
  { mkRow 1 "svc" 0 0 with
      aspirational_eb_health := "UNHEALTHY"
      aspirational_response_health := "UNHEALTHY" }

/-- C5 witness: `composite_health_score_spec` applied to the one-row store
whose service is healthy in exactly 3 of 5 dimensions; its score is 60. -/
theorem composite_health_score_spec_witness :
    (∀ e ∈ get_composite_health_score [healthRow],
      e.healthy_dimensions = specHealthyDims [healthRow] e.service_name ∧
      e.health_score =
        (specHealthyDims [healthRow] e.service_name : ℚ) / 5 * 100) ∧
    specHealthyDims [healthRow] "svc" = 3 ∧
    (∀ e ∈ get_composite_health_score [healthRow], e.health_score = 60) := by
  refine ⟨(composite_health_score_spec [healthRow]).1, by decide, ?_⟩
  intro e he
  have h := ((composite_health_score_spec [healthRow]).1 e he).2
  simp only [get_composite_health_score, List.mem_insertionSort,
    List.mem_map] at he
  obtain ⟨s, hs, rfl⟩ := he
  have hsv : s = "svc" := by
    have : serviceNames [healthRow] = ["svc"] := by decide
    rw [this] at hs
    simpa using hs
  subst hsv
  have h3 : specHealthyDims [healthRow]
      (mkHealthEntry "svc" (rowsOf [healthRow] "svc")).service_name = 3 := by
    decide
  rw [h, h3]
  norm_num

/-- One entry of `MetricsAggregator.get_aspirational_slo_gap`. -/
structure GapEntry where
  service_name : String
  eb_health : String
  aspirational_eb_health : String
  response_health : String
  aspirational_response_health : String
  std_eb_consumed : ℚ
  asp_eb_consumed : ℚ
  avg_burn_rate : ℚ
deriving Repr, DecidableEq

/-- The `WHERE` predicate of `get_aspirational_slo_gap`: standard health
HEALTHY while the corresponding aspirational health UNHEALTHY, for the
error-budget or the response dimension. -/
def aspirationalGapPred (r : MetricRow) : Bool :=
  (decide (r.eb_health = "HEALTHY") &&
    decide (r.aspirational_eb_health = "UNHEALTHY")) ||
  (decide (r.response_health = "HEALTHY") &&
    decide (r.aspirational_response_health = "UNHEALTHY"))

/-- Aggregate of one service's group of gap rows. -/
def mkGapEntry (s : String) (g : List MetricRow) : GapEntry :=
  { service_name := s
    eb_health := anyStr (·.eb_health) g
    aspirational_eb_health := anyStr (·.aspirational_eb_health) g
    response_health := anyStr (·.response_health) g
    aspirational_response_health := anyStr (·.aspirational_response_health) g
    std_eb_consumed := qavg (g.map (·.eb_actual_consumed_percent))
    asp_eb_consumed := qavg (g.map (·.aspirational_eb_actual_consumed_percent))
    avg_burn_rate := (serviceBurnRate g).getD 0 }

/-- `MetricsAggregator.get_aspirational_slo_gap`: keep the rows in the gap,
aggregate per service (the SQL has no `ORDER BY`). -/
def get_aspirational_slo_gap (store : List MetricRow) : List GapEntry :=
  let w := store.filter aspirationalGapPred
  (serviceNames w).map (fun s => mkGapEntry s (rowsOf w s))

/-- Concrete row for a service `D` with standard error-budget health HEALTHY
and aspirational error-budget health UNHEALTHY. -/
def gapRowD : MetricRow :=
  { mkRow 1 "D" 0 0 with aspirational_eb_health := "UNHEALTHY" }

/-- C6: a service appears in the aspirational-gap result iff one of its rows
is HEALTHY on a standard dimension (error budget or response) while
UNHEALTHY on the corresponding aspirational dimension; in particular a
service with standard eb HEALTHY and aspirational eb UNHEALTHY appears. -/
theorem aspirational_gap_spec :
    (∀ (store : List MetricRow) (s : String),
      (∃ e ∈ get_aspirational_slo_gap store, e.service_name = s) ↔
        ∃ r ∈ store, r.transaction_name = s ∧
          ((r.eb_health = "HEALTHY" ∧
            r.aspirational_eb_health = "UNHEALTHY") ∨
           (r.response_health = "HEALTHY" ∧
            r.aspirational_response_health = "UNHEALTHY"))) ∧
    (∃ e ∈ get_aspirational_slo_gap [gapRowD], e.service_name = "D") := by
  have main : ∀ (store : List MetricRow) (s : String),
      (∃ e ∈ get_aspirational_slo_gap store, e.service_name = s) ↔
        ∃ r ∈ store, r.transaction_name = s ∧
          ((r.eb_health = "HEALTHY" ∧
            r.aspirational_eb_health = "UNHEALTHY") ∨
           (r.response_health = "HEALTHY" ∧
            r.aspirational_response_health = "UNHEALTHY")) := by
    intro store s
    constructor
    · rintro ⟨e, he, hname⟩
      simp only [get_aspirational_slo_gap, List.mem_map] at he
      obtain ⟨s', hs', rfl⟩ := he
      have hss : s' = s := hname
      subst hss
      obtain ⟨r, hr, hrname⟩ := mem_serviceNames.1 hs'
      rw [List.mem_filter] at hr
      refine ⟨r, hr.1, hrname, ?_⟩
      have := hr.2
      simpa [aspirationalGapPred] using this
    · rintro ⟨r, hr, hname, hcond⟩
      have hrw : r ∈ store.filter aspirationalGapPred := by
        rw [List.mem_filter]
        exact ⟨hr, by simpa [aspirationalGapPred] using hcond⟩
      refine ⟨mkGapEntry s (rowsOf (store.filter aspirationalGapPred) s),
        ?_, rfl⟩
      simp only [get_aspirational_slo_gap, List.mem_map]
      exact ⟨s, mem_serviceNames.2 ⟨r, hrw, hname⟩, rfl⟩
  exact ⟨main, (main [gapRowD] "D").2
    ⟨gapRowD, by simp, rfl, Or.inl ⟨rfl, rfl⟩⟩⟩

/-- One entry of `MetricsAggregator.get_services_by_burn_rate`. -/
structure BurnEntry where
  service_name : String
  avg_burn_rate : ℚ
  avg_eb_consumed : ℚ
  avg_eb_left : ℚ
  avg_error_rate : ℚ
  eb_health : String
deriving Repr, DecidableEq

/-- Burn-rate entry of one service's group, given its (non-null) burn rate. -/
def mkBurnEntry (s : String) (g : List MetricRow) (b : ℚ) : BurnEntry :=
  { service_name := s
    avg_burn_rate := b
    avg_eb_consumed := qavg (g.map (·.eb_actual_consumed_percent))
    avg_eb_left := qavg (g.map (·.eb_left_percent))
    avg_error_rate := qavg (g.map (·.error_rate))
    eb_health := anyStr (·.eb_health) g }

/-- `ORDER BY avg_burn_rate DESC` on burn-rate entries (the `HAVING` clause
has already removed NULL burn rates). -/
def burnGE (a b : BurnEntry) : Prop :=
  b.avg_burn_rate ≤ a.avg_burn_rate

instance : DecidableRel burnGE := fun a b =>
  inferInstanceAs (Decidable (b.avg_burn_rate ≤ a.avg_burn_rate))

/-- `MetricsAggregator.get_services_by_burn_rate`: per-service burn rate,
`HAVING avg_burn_rate > 0` (a NULL burn rate never satisfies it), sorted
descending, limited. -/
def get_services_by_burn_rate (store : List MetricRow) (limit : ℕ) :
    List BurnEntry :=
  (List.insertionSort burnGE ((serviceNames store).filterMap (fun s =>
    match serviceBurnRate (rowsOf store s) with
    | none => none
    | some b =>
      if 0 < b then some (mkBurnEntry s (rowsOf store s) b) else none))).take
    limit

theorem listMax_mem : ∀ {l : List ℚ} {m : ℚ}, listMax l = some m → m ∈ l := by
  intro l
  induction l with
  | nil => intro m h; cases h
  | cons x xs ih =>
    intro m h
    rw [listMax] at h
    cases hx : listMax xs with
    | none =>
      rw [hx] at h
      cases h
      exact List.mem_cons_self x xs
    | some m' =>
      rw [hx] at h
      cases h
      rcases max_choice x m' with h1 | h1 <;> rw [h1]
      · exact List.mem_cons_self x xs
      · exact List.mem_cons_of_mem x (ih hx)

/-- C7: a service whose standard error-rate SLO target is NULL or 0 in every
row has a NULL (undefined) burn rate — not an exception, a zero or an
infinity — and is excluded from the top-by-burn-rate ranking. -/
theorem burn_rate_zero_target_excluded (store : List MetricRow) (limit : ℕ)
    (s : String)
    (h : ∀ r ∈ store, r.transaction_name = s →
      r.short_target_slo = none ∨ r.short_target_slo = some 0) :
    serviceBurnRate (rowsOf store s) = none ∧
    ∀ e ∈ get_services_by_burn_rate store limit, e.service_name ≠ s := by
  have htargets : ∀ t ∈ (rowsOf store s).filterMap (·.short_target_slo),
      t = 0 := by
    intro t ht
    rw [List.mem_filterMap] at ht
    obtain ⟨r, hr, hrt⟩ := ht
    rw [rowsOf, List.mem_filter] at hr
    rcases h r hr.1 (by simpa using hr.2) with hnone | h0
    · rw [hnone] at hrt; cases hrt
    · rw [h0] at hrt
      cases hrt
      rfl
  have hburn : serviceBurnRate (rowsOf store s) = none := by
    cases hmax : listMax ((rowsOf store s).filterMap (·.short_target_slo)) with
    | none => simp [serviceBurnRate, hmax, nullif0]
    | some m =>
      have hm0 : m = 0 := htargets m (listMax_mem hmax)
      subst hm0
      simp [serviceBurnRate, hmax, nullif0]
  refine ⟨hburn, ?_⟩
  intro e he heq
  have he' : e ∈ (serviceNames store).filterMap (fun s' =>
      match serviceBurnRate (rowsOf store s') with
      | none => none
      | some b =>
        if 0 < b then some (mkBurnEntry s' (rowsOf store s') b) else none) := by
    have := List.mem_of_mem_take he
    rwa [List.mem_insertionSort] at this
  rw [List.mem_filterMap] at he'
  obtain ⟨s', _, hmap⟩ := he'
  split at hmap
  · exact Option.noConfusion hmap
  · rename_i b hb
    split at hmap
    · cases hmap
      have hss : s' = s := heq
      rw [hss] at hb
      rw [hburn] at hb
      exact Option.noConfusion hb
    · exact Option.noConfusion hmap

/-- Concrete rows of a service `E` whose standard target is 0 in one hour and
NULL in another. -/
def storeW7 : List MetricRow :=
  [{ mkRow 1 "E" 1 1 with short_target_slo := some 0 }, mkRow 2 "E" 1 1]

/-- C7 witness: `burn_rate_zero_target_excluded` applied to the concrete
store `storeW7`, whose only service has target 0 or NULL everywhere. -/
theorem burn_rate_zero_target_excluded_witness :
    serviceBurnRate (rowsOf storeW7 "E") = none ∧
    ∀ e ∈ get_services_by_burn_rate storeW7 10, e.service_name ≠ "E" :=
  burn_rate_zero_target_excluded storeW7 10 "E" (by decide)

/-- One entry of `MetricsAggregator.get_slowest_services`.  `Option` models a
JSON-nullable field: the Python layer emits `None` for the percentiles when
they are NaN, but substitutes `1.0` for a NaN SLO target and `True` for an
undecidable `slo_met`, so those two are always `some`. -/
structure SlowEntry where
  service_name : String
  avg_response_time : ℚ
  avg_response_time_p50 : Option ℚ
  avg_response_time_p95 : Option ℚ
  avg_response_time_p99 : Option ℚ
  response_slo_target : Option ℚ
  total_requests : ℤ
  slo_met : Option Bool
deriving Repr, DecidableEq

/-- `MAX(response_slo)` over one service's group (NULL-skipping SQL `MAX`). -/
def slowTarget (g : List MetricRow) : Option ℚ :=
  listMax (g.filterMap (·.response_slo))

/-- Slowest-services entry of one service's group: P99 (falling back to the
average) is checked against the target; a NULL target becomes `1.0` and an
undecidable check becomes `True`. -/
def mkSlowEntry (s : String) (g : List MetricRow) : SlowEntry :=
  { service_name := s
    avg_response_time := qavg (g.map (·.avg_response_time))
    avg_response_time_p50 := avgOpt (g.map (·.percentile_50))
    avg_response_time_p95 := avgOpt (g.map (·.percentile_95))
    avg_response_time_p99 := avgOpt (g.map (·.percentile_99))
    response_slo_target := some ((slowTarget g).getD 1)
    total_requests := ratTrunc ((g.map (·.total_count)).sum)
    slo_met := some (match slowTarget g with
      | some t =>
        decide ((avgOpt (g.map (·.percentile_99))).getD
          (qavg (g.map (·.avg_response_time))) ≤ t)
      | none => true) }

/-- `ORDER BY COALESCE(avg_p99, avg_response_time) DESC` on slowest-services
entries. -/
def slowGE (a b : SlowEntry) : Prop :=
  b.avg_response_time_p99.getD b.avg_response_time ≤
    a.avg_response_time_p99.getD a.avg_response_time

instance : DecidableRel slowGE := fun a b =>
  inferInstanceAs (Decidable (b.avg_response_time_p99.getD b.avg_response_time ≤
    a.avg_response_time_p99.getD a.avg_response_time))

instance : IsTotal SlowEntry slowGE :=
  ⟨fun a b => le_total (b.avg_response_time_p99.getD b.avg_response_time)
    (a.avg_response_time_p99.getD a.avg_response_time)⟩

instance : IsTrans SlowEntry slowGE :=
  ⟨fun _ _ _ hab hbc => le_trans hbc hab⟩

/-- `MetricsAggregator.get_slowest_services`: one entry per service, ordered
by P99 (falling back to average response time), limited. -/
def get_slowest_services (store : List MetricRow) (limit : ℕ) :
    List SlowEntry :=
  (List.insertionSort slowGE
    ((serviceNames store).map (fun s => mkSlowEntry s (rowsOf store s)))).take
    limit

theorem avgOpt_eq_none {xs : List (Option ℚ)} :
    avgOpt xs = none ↔ ∀ x ∈ xs, x = none := by
  unfold avgOpt
  split_ifs with h
  · rw [List.isEmpty_iff] at h
    rw [List.filterMap_eq_nil_iff] at h
    exact iff_of_true rfl (by simpa using h)
  · refine iff_of_false (by simp) ?_
    intro hall
    rw [List.isEmpty_iff] at h
    exact h (List.filterMap_eq_nil_iff.2 (by simpa using hall))

theorem avgOpt_rowsOf_none (store : List MetricRow) (s : String)
    (f : MetricRow → Option ℚ) :
    avgOpt ((rowsOf store s).map f) = none ↔
      ∀ r ∈ store, r.transaction_name = s → f r = none := by
  rw [avgOpt_eq_none]
  constructor
  · intro h r hr hname
    exact h (f r)
      (List.mem_map_of_mem f (List.mem_filter.2 ⟨hr, by simp [hname]⟩))
  · intro h x hx
    rw [List.mem_map] at hx
    obtain ⟨r, hr, rfl⟩ := hx
    rw [rowsOf, List.mem_filter] at hr
    exact h r hr.1 (by simpa using hr.2)

theorem slowTarget_none {store : List MetricRow} {s : String}
    (h : ∀ r ∈ store, r.transaction_name = s → r.response_slo = none) :
    slowTarget (rowsOf store s) = none := by
  unfold slowTarget
  have hnil : (rowsOf store s).filterMap (·.response_slo) = [] := by
    rw [List.filterMap_eq_nil_iff]
    intro r hr
    rw [rowsOf, List.mem_filter] at hr
    exact h r hr.1 (by simpa using hr.2)
  rw [hnil]
  rfl

/-- Concrete row for service `S` with a NULL response-time SLO target and a
present P99. -/
def slowRow : MetricRow := { mkRow 1 "S" 0 2 with percentile_99 := some 3 }

/-- C8 counterexample: on a store whose only row has a NULL response-time SLO
target, `get_slowest_services` does not return a null target — it substitutes
the default `1.0`, and the `slo_met` flag silently defaults to `true`. -/
theorem slowest_null_target_not_preserved :
    slowRow.response_slo = none ∧
    ∃ e ∈ get_slowest_services [slowRow] 10,
      e.service_name = "S" ∧ e.response_slo_target = some 1 ∧
      e.response_slo_target ≠ none ∧ e.slo_met = some true := by
  have hres : get_slowest_services [slowRow] 10 =
      [mkSlowEntry "S" (rowsOf [slowRow] "S")] := rfl
  have ht : slowTarget (rowsOf [slowRow] "S") = none :=
    slowTarget_none (by decide)
  refine ⟨rfl, mkSlowEntry "S" (rowsOf [slowRow] "S"), ?_, rfl, ?_, ?_, ?_⟩
  · rw [hres]
    exact List.mem_singleton.2 rfl
  · simp [mkSlowEntry, ht]
  · simp [mkSlowEntry]
  · simp [mkSlowEntry, ht]

/-- C8 amended: percentile fields (p50, p95, p99) of a slowest-services
entry are explicit nulls exactly when every row of the service lacks them,
and the result list is ranked descending by P99 falling back to the average
response time when P99 is null; but a NULL response-time SLO target is
replaced by the default `1.0` and the `slo_met` flag defaults to `true` when
the target is NULL. -/
theorem get_slowest_services_null_fields (store : List MetricRow) (limit : ℕ)
    (e : SlowEntry) (he : e ∈ get_slowest_services store limit) :
    (e.avg_response_time_p99 = none ↔
      ∀ r ∈ store, r.transaction_name = e.service_name →
        r.percentile_99 = none) ∧
    (e.avg_response_time_p95 = none ↔
      ∀ r ∈ store, r.transaction_name = e.service_name →
        r.percentile_95 = none) ∧
    (e.avg_response_time_p50 = none ↔
      ∀ r ∈ store, r.transaction_name = e.service_name →
        r.percentile_50 = none) ∧
    ((∀ r ∈ store, r.transaction_name = e.service_name →
        r.response_slo = none) →
      e.response_slo_target = some 1 ∧ e.slo_met = some true) ∧
    (get_slowest_services store limit).Pairwise (fun a b =>
      b.avg_response_time_p99.getD b.avg_response_time ≤
        a.avg_response_time_p99.getD a.avg_response_time) := by
  have hsorted : (get_slowest_services store limit).Pairwise
      (fun a b => b.avg_response_time_p99.getD b.avg_response_time ≤
        a.avg_response_time_p99.getD a.avg_response_time) :=
    List.Pairwise.sublist (List.take_sublist _ _)
      (List.sorted_insertionSort slowGE _)
  have he' : e ∈ (serviceNames store).map
      (fun s => mkSlowEntry s (rowsOf store s)) := by
    have := List.mem_of_mem_take he
    rwa [List.mem_insertionSort] at this
  rw [List.mem_map] at he'
  obtain ⟨s, _, rfl⟩ := he'
  refine ⟨?_, ?_, ?_, ?_, hsorted⟩
  · exact avgOpt_rowsOf_none store s (·.percentile_99)
  · exact avgOpt_rowsOf_none store s (·.percentile_95)
  · exact avgOpt_rowsOf_none store s (·.percentile_50)
  · intro hnull
    have ht : slowTarget (rowsOf store s) = none := slowTarget_none hnull
    constructor
    · simp [mkSlowEntry, ht]
    · simp [mkSlowEntry, ht]

/-- C8 witness for the amended theorem: applied to the concrete one-row store
with a present P99 and a NULL SLO target. -/
theorem get_slowest_services_null_fields_witness :
    ((mkSlowEntry "S" (rowsOf [slowRow] "S")).avg_response_time_p99 = none ↔
      ∀ r ∈ [slowRow], r.transaction_name =
          (mkSlowEntry "S" (rowsOf [slowRow] "S")).service_name →
        r.percentile_99 = none) ∧
    ((mkSlowEntry "S" (rowsOf [slowRow] "S")).avg_response_time_p95 = none ↔
      ∀ r ∈ [slowRow], r.transaction_name =
          (mkSlowEntry "S" (rowsOf [slowRow] "S")).service_name →
        r.percentile_95 = none) ∧
    ((mkSlowEntry "S" (rowsOf [slowRow] "S")).avg_response_time_p50 = none ↔
      ∀ r ∈ [slowRow], r.transaction_name =
          (mkSlowEntry "S" (rowsOf [slowRow] "S")).service_name →
        r.percentile_50 = none) ∧
    ((∀ r ∈ [slowRow], r.transaction_name =
          (mkSlowEntry "S" (rowsOf [slowRow] "S")).service_name →
        r.response_slo = none) →
      (mkSlowEntry "S" (rowsOf [slowRow] "S")).response_slo_target = some 1 ∧
      (mkSlowEntry "S" (rowsOf [slowRow] "S")).slo_met = some true) ∧
    (get_slowest_services [slowRow] 10).Pairwise (fun a b =>
      b.avg_response_time_p99.getD b.avg_response_time ≤
        a.avg_response_time_p99.getD a.avg_response_time) :=
  get_slowest_services_null_fields [slowRow] 10
    (mkSlowEntry "S" (rowsOf [slowRow] "S"))
    (by rw [show get_slowest_services [slowRow] 10 =
        [mkSlowEntry "S" (rowsOf [slowRow] "S")] from rfl]
        exact List.mem_singleton.2 rfl)

/-- The analytics handlers reachable from `FunctionExecutor.execute`'s
dispatch map (one tag per bound method of the four analytics components). -/
inductive AnalyticsCall where
  | getDegradingServices
  | getCurrentSli
  | getSloViolations
  | getServiceHealthOverview
  | getTopServicesByVolume
  | getSlowestServices
  | getErrorProneServices
  | calculateErrorBudget
  | getServiceSummary
  | predictIssuesToday
  | getVolumeTrends
  | getHistoricalPatterns
  | getServicesByBurnRate
  | getAspirationalSloGap
  | getTimelinessIssues
  | getBreachVsErrorAnalysis
  | getBudgetExhaustedServices
  | getCompositeHealthScore
  | getSeverityHeatmap
  | getSloGovernanceStatus
deriving Repr, DecidableEq

/-- The `function_map` dictionary of `FunctionExecutor.execute`: the 20 tool
names and the handlers they dispatch to. -/
def function_map : List (String × AnalyticsCall) :=
  [("get_degrading_services", AnalyticsCall.getDegradingServices),
   ("get_current_sli", AnalyticsCall.getCurrentSli),
   ("get_slo_violations", AnalyticsCall.getSloViolations),
   ("get_service_health_overview", AnalyticsCall.getServiceHealthOverview),
   ("get_top_services_by_volume", AnalyticsCall.getTopServicesByVolume),
   ("get_slowest_services", AnalyticsCall.getSlowestServices),
   ("get_error_prone_services", AnalyticsCall.getErrorProneServices),
   ("calculate_error_budget", AnalyticsCall.calculateErrorBudget),
   ("get_service_summary", AnalyticsCall.getServiceSummary),
   ("predict_issues_today", AnalyticsCall.predictIssuesToday),
   ("get_volume_trends", AnalyticsCall.getVolumeTrends),
   ("get_historical_patterns", AnalyticsCall.getHistoricalPatterns),
   ("get_services_by_burn_rate", AnalyticsCall.getServicesByBurnRate),
   ("get_aspirational_slo_gap", AnalyticsCall.getAspirationalSloGap),
   ("get_timeliness_issues", AnalyticsCall.getTimelinessIssues),
   ("get_breach_vs_error_analysis", AnalyticsCall.getBreachVsErrorAnalysis),
   ("get_budget_exhausted_services",
     AnalyticsCall.getBudgetExhaustedServices),
   ("get_composite_health_score", AnalyticsCall.getCompositeHealthScore),
   ("get_severity_heatmap", AnalyticsCall.getSeverityHeatmap),
   ("get_slo_governance_status", AnalyticsCall.getSloGovernanceStatus)]

/-- Result of `FunctionExecutor.execute`: either an invocation of an
analytics handler with the caller's parameter map, or an error dictionary. -/
inductive ExecResult (P : Type) where
  | invoke (call : AnalyticsCall) (params : P)
  | errorResult (msg : String)
deriving Repr, DecidableEq

/-- `FunctionExecutor.execute`: look the name up in `function_map`; unknown
names produce the error dictionary without dispatching to any component. -/
def execute {P : Type} (function_name : String) (parameters : P) :
    ExecResult P :=
  match function_map.find? (fun kv => kv.1 = function_name) with
  | some kv => ExecResult.invoke kv.2 parameters
  | none => ExecResult.errorResult ("Unknown function: " ++ function_name)

/-- C10: a name outside the 20 dispatch-map names makes `execute` return the
error result naming the unknown function, never an invocation of an
analytics handler; the dispatch map has exactly 20 entries. -/
theorem execute_unknown_function {P : Type} (function_name : String)
    (parameters : P)
    (h : function_name ∉ function_map.map Prod.fst) :
    execute function_name parameters =
      ExecResult.errorResult ("Unknown function: " ++ function_name) ∧
    (∀ (call : AnalyticsCall) (q : P),
      execute function_name parameters ≠ ExecResult.invoke call q) ∧
    function_map.length = 20 := by
  have hfind : function_map.find? (fun kv => kv.1 = function_name) = none := by
    rw [List.find?_eq_none]
    intro kv hkv
    simp only [decide_eq_true_eq]
    intro heq
    exact h (heq ▸ List.mem_map_of_mem Prod.fst hkv)
  refine ⟨?_, ?_, rfl⟩
  · rw [execute, hfind]
  · intro call q
    rw [execute, hfind]
    exact fun hcontra => ExecResult.noConfusion hcontra

/-- C10 witness: the unknown name `foo` yields the error result and no
invocation. -/
theorem execute_unknown_function_witness :
    execute "foo" (0 : ℕ) =
      ExecResult.errorResult ("Unknown function: " ++ "foo") ∧
    (∀ (call : AnalyticsCall) (q : ℕ),
      execute "foo" (0 : ℕ) ≠ ExecResult.invoke call q) ∧
    function_map.length = 20 :=
  execute_unknown_function "foo" 0 (by decide)
